import Mathlib

/-!
Verification of the element-UID / page-snapshot subsystem and the
console-log query subsystem of the weixin-devtools-mcp repository.

The definitions below are shallow embeddings of the corresponding
TypeScript functions:
  * `generateElementUid`, `getPageSnapshot`, `clickElement`,
    `queryElements` from `src/tools.ts`;
  * `getPageSnapshotTool` (the `maxElements` cap and the map rewrite)
    from `src/tools/snapshot.ts`;
  * `formatPaginationInfo` from `src/formatters/consoleFormatter.ts`;
  * `createIdGenerator` from `src/utils/idGenerator.ts`;
  * the console-storage state (`initializeConsoleStorage`, the
    `console` / `exception` event handlers registered by
    `start_console_monitoring`, `get_console_message`,
    `list_console_messages`) from the console tools file.

JavaScript `Map` objects are embedded as association lists with unique
keys: `mset` mimics `Map.set` (update in place, otherwise append at the
end, preserving insertion order) and `mget` mimics `Map.get`.
JavaScript numbers appearing here are all integers in the safe range and
are embedded as `Nat` (or `Int` for coordinates).
-/

set_option maxHeartbeats 1000000

namespace WeixinMcp

/-! ### Association-list model of a JavaScript `Map` -/

/-- `Map.get`: first (and, for lists built by `mset`, only) binding of `k`. -/
def mget {κ α : Type} [DecidableEq κ] : List (κ × α) → κ → Option α
  | [], _ => none
  | p :: rest, k => if p.1 = k then some p.2 else mget rest k

/-- `Map.set`: replace the binding of `k` in place, else append it. -/
def mset {κ α : Type} [DecidableEq κ] : List (κ × α) → κ → α → List (κ × α)
  | [], k, v => [(k, v)]
  | p :: rest, k, v => if p.1 = k then (k, v) :: rest else p :: mset rest k v

theorem mget_mset {κ α : Type} [DecidableEq κ] (m : List (κ × α)) (k k' : κ) (v : α) :
    mget (mset m k v) k' = if k = k' then some v else mget m k' := by
  induction m with
  | nil =>
    by_cases h : k = k' <;> simp [mget, mset, h]
  | cons p rest ih =>
    obtain ⟨pk, pv⟩ := p
    simp only [mset]
    by_cases hp : pk = k
    · subst hp
      rw [if_pos rfl]
      by_cases h : pk = k' <;> simp [mget, h]
    · rw [if_neg hp]
      by_cases h : pk = k'
      · have hkk : k ≠ k' := fun hk => hp (h.trans hk.symm)
        simp [mget, h, hkk]
      · simp [mget, h, ih]

theorem mget_mset_isSome {κ α : Type} [DecidableEq κ] (m : List (κ × α)) (k k' : κ) (v : α)
    (h : (mget m k').isSome) : (mget (mset m k v) k').isSome := by
  rw [mget_mset]
  by_cases hk : k = k' <;> simp [hk, h]

/-- Number of occurrences of a string in a list (used to phrase the
collision-counting invariants of the UID generators). -/
def countOcc (b : String) : List String → Nat
  | [] => 0
  | x :: xs => (if x = b then 1 else 0) + countOcc b xs

/-! ### Stable-ID generator (`createIdGenerator`, `src/utils/idGenerator.ts`)

```js
export function createIdGenerator(): () => number {
  let i = 1;
  return () => {
    if (i === Number.MAX_SAFE_INTEGER) {
      i = 0;
    }
    return i++;
  };
}
```
-/

def maxSafeInteger : Nat := 9007199254740991

/-- One call of the generator closure: from the stored counter `i`,
produce the returned id and the next stored counter. -/
def idGenStep (i : Nat) : Nat × Nat :=
  if i = maxSafeInteger then (0, 1) else (i, i + 1)

/-- Stored counter after `n` calls (the closure starts with `i = 1`). -/
def idGenStateAfter : Nat → Nat
  | 0 => 1
  | n + 1 => (idGenStep (idGenStateAfter n)).2

/-- Id returned by the `n`-th call (1-indexed) of one generator instance. -/
def nthGeneratedId (n : Nat) : Nat :=
  (idGenStep (idGenStateAfter (n - 1))).1

theorem maxSafeInteger_eq : maxSafeInteger = 9007199254740990 + 1 := rfl

theorem idGenStateAfter_succ (n : Nat) :
    idGenStateAfter (n + 1) = (idGenStep (idGenStateAfter n)).2 := rfl

theorem idGenStateAfter_lt (n : Nat) (h : n < maxSafeInteger) :
    idGenStateAfter n = n + 1 := by
  induction n with
  | zero => rfl
  | succ n ih =>
    have hn : n < maxSafeInteger := Nat.lt_of_succ_lt h
    have hne : n + 1 ≠ maxSafeInteger := Nat.ne_of_lt h
    rw [idGenStateAfter_succ, ih hn]
    simp [idGenStep, hne]

theorem nthGeneratedId_lt (n : Nat) (h1 : 1 ≤ n) (h2 : n < maxSafeInteger) :
    nthGeneratedId n = n := by
  have hpred : n - 1 < maxSafeInteger := lt_of_le_of_lt (Nat.sub_le n 1) h2
  have hstate : idGenStateAfter (n - 1) = n := by
    rw [idGenStateAfter_lt (n - 1) hpred, Nat.sub_add_cancel h1]
  have hne : n ≠ maxSafeInteger := Nat.ne_of_lt h2
  rw [nthGeneratedId, hstate]
  simp [idGenStep, hne]

theorem idGenStateAfter_max : idGenStateAfter maxSafeInteger = 1 := by
  have h1 : (9007199254740990 : Nat) < maxSafeInteger := by
    rw [maxSafeInteger_eq]; omega
  rw [maxSafeInteger_eq, idGenStateAfter_succ, idGenStateAfter_lt _ h1, ← maxSafeInteger_eq]
  simp [idGenStep]

theorem nthGeneratedId_max : nthGeneratedId maxSafeInteger = 0 := by
  have hsub : maxSafeInteger - 1 = 9007199254740990 := by
    rw [maxSafeInteger_eq]
  have h1 : (9007199254740990 : Nat) < maxSafeInteger := by
    rw [maxSafeInteger_eq]; omega
  rw [nthGeneratedId, hsub, idGenStateAfter_lt _ h1, ← maxSafeInteger_eq]
  simp [idGenStep]

theorem nthGeneratedId_after_max : nthGeneratedId (maxSafeInteger + 1) = 1 := by
  have hne : (1 : Nat) ≠ maxSafeInteger := by
    rw [maxSafeInteger_eq]; omega
  rw [nthGeneratedId, Nat.add_sub_cancel, idGenStateAfter_max]
  simp [idGenStep, hne]

/-- C3 — the claim says every returned msgid is positive and the counter
resumes at 1 after the wrap.  In the source the wraparound call itself
returns 0: when the stored counter reaches `Number.MAX_SAFE_INTEGER` it is
reset to 0 and `i++` then returns that 0.  Concretely, the call numbered
`maxSafeInteger` returns 0, which is not positive. -/
theorem c3_counterexample :
    nthGeneratedId maxSafeInteger = 0 ∧ ¬ 0 < nthGeneratedId maxSafeInteger := by
  constructor
  · exact nthGeneratedId_max
  · rw [nthGeneratedId_max]
    exact Nat.lt_irrefl 0

/-- C3 (amended) — ids start at 1 and are strictly increasing (the `n`-th
call returns exactly `n`) for every call before the wraparound point; the
call numbered `maxSafeInteger` returns 0 once, and the next call resumes
at 1. -/
theorem c3_amended :
    (∀ n, 1 ≤ n → n < maxSafeInteger → nthGeneratedId n = n) ∧
    nthGeneratedId maxSafeInteger = 0 ∧
    nthGeneratedId (maxSafeInteger + 1) = 1 :=
  ⟨nthGeneratedId_lt, nthGeneratedId_max, nthGeneratedId_after_max⟩

/-- C3 witness: the amended theorem applied at the concrete call number 5. -/
theorem c3_witness : nthGeneratedId 5 = 5 :=
  c3_amended.1 5 (by decide) (by simp [maxSafeInteger])

/-! ### Pagination (`formatPaginationInfo`, `src/formatters/consoleFormatter.ts`,
and the slice in `list_console_messages`) -/

structure PaginationInfo where
  info : List String
  hasNextPage : Bool
  hasPreviousPage : Bool
  deriving Repr, DecidableEq

def formatPaginationInfo (total pageSize pageIdx : Nat) : PaginationInfo :=
  let s := pageIdx * pageSize
  let e := min (s + pageSize) total
  let hasNext : Bool := decide (e < total)
  let hasPrev : Bool := decide (0 < pageIdx)
  { info :=
      ["Total: " ++ toString total ++ " messages",
       "Showing: " ++ toString (s + 1) ++ "-" ++ toString e]
      ++ (if hasNext then ["Next page: " ++ toString (pageIdx + 1)] else [])
      ++ (if hasPrev then ["Previous page: " ++ toString (pageIdx - 1)] else [])
    hasNextPage := hasNext
    hasPreviousPage := hasPrev }

/-- The slice taken by `list_console_messages` from the filtered,
newest-first message sequence:
`allMessages.slice(pageIdx*pageSize, min(pageIdx*pageSize+pageSize, total))`. -/
def listConsoleMessagesPage {α : Type} (msgs : List α) (pageSize pageIdx : Nat) : List α :=
  let total := msgs.length
  let s := pageIdx * pageSize
  let e := min (s + pageSize) total
  (msgs.drop s).take (e - s)

theorem getD_drop {α : Type} (l : List α) (s i : Nat) (d : α) :
    (l.drop s).getD i d = l.getD (s + i) d := by
  induction s generalizing l with
  | zero => simp
  | succ s ih =>
    cases l with
    | nil => simp
    | cons x xs =>
      simp only [List.drop, Nat.succ_add, List.getD]
      exact ih xs

theorem getD_take {α : Type} (l : List α) (n i : Nat) (d : α) (h : i < n) :
    (l.take n).getD i d = l.getD i d := by
  induction l generalizing n i with
  | nil => simp
  | cons x xs ih =>
    cases n with
    | zero => exact absurd h (Nat.not_lt_zero i)
    | succ n =>
      cases i with
      | zero => simp
      | succ i =>
        simpa using ih n i (Nat.lt_of_succ_lt_succ h)

/-- 25 stored messages, identified by their 1-based position in the
newest-first sequence (the concrete scenario named by the claim). -/
def msgs25 : List Nat := (List.range 25).map (fun n => n + 1)

/-- C6 — `list_console_messages` pagination: the page is the slice
`[pageIdx*pageSize, min((pageIdx+1)*pageSize, total))` of the filtered,
newest-first sequence; the reported info lists the total, the 1-based
display range, a next page `pageIdx+1` exactly when the slice end is
below the total, and a previous page `pageIdx-1` exactly when
`pageIdx > 0`; concretely, 25 messages with pageSize 20 give records
1–20 / next page 1 at pageIdx 0, and records 21–25 / previous page 0 and
no next page at pageIdx 1. -/
theorem c6_pagination {α : Type} (msgs : List α) (d : α) (pageSize pageIdx : Nat)
    (hps : 0 < pageSize) :
    (listConsoleMessagesPage msgs pageSize pageIdx).length
        = min pageSize (msgs.length - pageIdx * pageSize) ∧
    (∀ i, i < (listConsoleMessagesPage msgs pageSize pageIdx).length →
      (listConsoleMessagesPage msgs pageSize pageIdx).getD i d
        = msgs.getD (pageIdx * pageSize + i) d) ∧
    (formatPaginationInfo msgs.length pageSize pageIdx).info =
      ["Total: " ++ toString msgs.length ++ " messages",
       "Showing: " ++ toString (pageIdx * pageSize + 1) ++ "-"
         ++ toString (min (pageIdx * pageSize + pageSize) msgs.length)]
      ++ (if min (pageIdx * pageSize + pageSize) msgs.length < msgs.length
          then ["Next page: " ++ toString (pageIdx + 1)] else [])
      ++ (if 0 < pageIdx then ["Previous page: " ++ toString (pageIdx - 1)] else []) ∧
    ((formatPaginationInfo msgs.length pageSize pageIdx).hasNextPage = true ↔
      min (pageIdx * pageSize + pageSize) msgs.length < msgs.length) ∧
    ((formatPaginationInfo msgs.length pageSize pageIdx).hasPreviousPage = true ↔
      0 < pageIdx) ∧
    listConsoleMessagesPage msgs25 20 0 = (List.range 20).map (fun n => n + 1) ∧
    listConsoleMessagesPage msgs25 20 1 = [21, 22, 23, 24, 25] ∧
    (formatPaginationInfo 25 20 0).info
      = ["Total: 25 messages", "Showing: 1-20", "Next page: 1"] ∧
    (formatPaginationInfo 25 20 1).info
      = ["Total: 25 messages", "Showing: 21-25", "Previous page: 0"] ∧
    (formatPaginationInfo 25 20 1).hasNextPage = false := by
  refine ⟨?_, ?_, ?_, ?_, ?_, by decide, by decide, by decide, by decide, by decide⟩
  · simp only [listConsoleMessagesPage, List.length_take, List.length_drop]
    omega
  · intro i hi
    simp only [listConsoleMessagesPage, List.length_take, List.length_drop] at hi
    simp only [listConsoleMessagesPage]
    rw [getD_take _ _ _ _ (lt_of_lt_of_le hi (min_le_left _ _)), getD_drop]
  · simp [formatPaginationInfo]
  · simp [formatPaginationInfo]
  · simp [formatPaginationInfo]

/-- C6 witness: the pagination theorem applied to the 25-message scenario
at pageSize 20, pageIdx 1, reading the third record of the second page. -/
theorem c6_witness : (listConsoleMessagesPage msgs25 20 1).getD 2 0 = 23 := by
  have h := (c6_pagination msgs25 0 20 1 (by decide)).2.1 2 (by decide)
  rw [h]
  decide

/-- C10 — against an empty store the claim asserts the display range is
always `Showing: 1-0`.  The lower bound printed by the source is
`pageIdx*pageSize + 1`, so at pageSize 20, pageIdx 1 the info reads
`Showing: 21-0`, not `Showing: 1-0`. -/
theorem c10_counterexample :
    (formatPaginationInfo 0 20 1).info
      = ["Total: 0 messages", "Showing: 21-0", "Previous page: 0"] ∧
    "Showing: 1-0" ∉ (formatPaginationInfo 0 20 1).info := by
  constructor <;> decide

/-- C10 (amended) — when the total is 0 the info states `Total: 0 messages`
and a display range `Showing: (pageIdx*pageSize+1)-0` (whose 1-based lower
bound exceeds the upper bound 0; it is `Showing: 1-0` exactly on page 0),
reports no next page, and reports a previous page exactly when
`pageIdx > 0` even though every page is empty. -/
theorem c10_amended (pageSize pageIdx : Nat) :
    (formatPaginationInfo 0 pageSize pageIdx).info
      = ["Total: " ++ toString (0 : Nat) ++ " messages",
         "Showing: " ++ toString (pageIdx * pageSize + 1) ++ "-" ++ toString (0 : Nat)]
        ++ (if 0 < pageIdx then ["Previous page: " ++ toString (pageIdx - 1)] else []) ∧
    (formatPaginationInfo 0 pageSize 0).info = ["Total: 0 messages", "Showing: 1-0"] ∧
    (formatPaginationInfo 0 pageSize pageIdx).hasNextPage = false ∧
    (formatPaginationInfo 0 pageSize pageIdx).hasPreviousPage = decide (0 < pageIdx) := by
  refine ⟨?_, ?_, ?_, ?_⟩
  · simp [formatPaginationInfo]
  · simp [formatPaginationInfo]
    exact ⟨by decide, by decide⟩
  · simp [formatPaginationInfo]
  · simp [formatPaginationInfo]

/-! ### UID generation and the snapshot builder (`src/tools.ts`)

`generateElementUid(element, index)` (and the identical inline uid
computation of `getPageSnapshot`):
```js
let selector = tagName;
if (id)             selector += `#${id}`;
else if (className) selector += `.${className.split(' ')[0]}`;
else                selector += `:nth-child(${i + 1})`;
```
A failed/absent attribute read is the empty string (every read carries
`.catch(() => '')`), and JavaScript string truthiness makes `''` take the
fallback branch. -/

structure ElementAttrs where
  tagName : String
  id : String
  className : String
  deriving Repr, DecidableEq, Inhabited

/-- `className.split(' ')[0]`: the characters before the first space
(`''` when the string is empty or starts with a space, as in JavaScript). -/
def firstClassToken (className : String) : String :=
  ⟨className.data.takeWhile (fun c => c ≠ ' ')⟩

/-- `text.trim()`: strip leading and trailing whitespace. -/
def jsTrim (s : String) : String :=
  ⟨((s.data.dropWhile Char.isWhitespace).reverse.dropWhile Char.isWhitespace).reverse⟩

def generateElementUid (e : ElementAttrs) (i : Nat) : String :=
  if e.id ≠ "" then e.tagName ++ "#" ++ e.id
  else if e.className ≠ "" then e.tagName ++ "." ++ firstClassToken e.className
  else e.tagName ++ ":nth-child(" ++ toString (i + 1) ++ ")"

/-- The queryable base selector stored in the map by `getPageSnapshot`
(same as the uid but with the plain tag instead of the nth-child
fallback). -/
def baseSelectorOf (e : ElementAttrs) : String :=
  if e.id ≠ "" then e.tagName ++ "#" ++ e.id
  else if e.className ≠ "" then e.tagName ++ "." ++ firstClassToken e.className
  else e.tagName

/-- The outcome of the per-element property fetches performed by
`getPageSnapshot` through `Promise.allSettled`.  `none` records a failed
fetch (each promise carries its own `.catch`, so the settled value is the
catch default: `''` for `text`/`class`/`id` and `null` for
`size`/`offset`; an absent `element.tagName` is the empty string, turned
into `'unknown'` by `element.tagName || 'unknown'`). -/
structure FetchedElement where
  tagName : String
  text : Option String
  className : Option String
  id : Option String
  size : Option (Int × Int)
  offset : Option (Int × Int)
  deriving Repr, DecidableEq, Inhabited

/-- Attribute triple after applying the catch defaults and the
`|| 'unknown'` fallback. -/
def resolvedAttrs (f : FetchedElement) : ElementAttrs :=
  { tagName := if f.tagName = "" then "unknown" else f.tagName
    id := f.id.getD ""
    className := f.className.getD "" }

structure Position where
  left : Int
  top : Int
  width : Int
  height : Int
  deriving Repr, DecidableEq, Inhabited

/-- One entry of the snapshot's `elements` array. -/
structure ElementSnapshot where
  uid : String
  tagName : String
  text : Option String
  position : Option Position
  deriving Repr, DecidableEq, Inhabited

/-- Loop body of `getPageSnapshot` producing the `ElementSnapshot` pushed
for the element at position `i`. -/
def processElement (i : Nat) (f : FetchedElement) : ElementSnapshot :=
  let attrs := resolvedAttrs f
  let text := f.text.getD ""
  { uid := generateElementUid attrs i
    tagName := attrs.tagName
    text := if jsTrim text ≠ "" then some (jsTrim text) else none
    position :=
      match f.size, f.offset with
      | some (w, h), some (l, t) => some ⟨l, t, w, h⟩
      | _, _ => none }

/-- `ElementMapInfo` of `src/tools.ts`. -/
structure ElementMapInfo where
  selector : String
  index : Nat
  deriving Repr, DecidableEq, Inhabited

/-- The three accumulators of the `getPageSnapshot` loop: the `elements`
array, the per-base-selector occurrence counter `selectorIndexMap`, and
the uid → (selector, index) `elementMap`. -/
structure SnapState where
  elements : List ElementSnapshot
  selectorIndexMap : List (String × Nat)
  elementMap : List (String × ElementMapInfo)
  deriving Repr, DecidableEq, Inhabited

/-- One iteration of the `getPageSnapshot` loop at index `i`. -/
def snapStep (s : SnapState) (i : Nat) (f : FetchedElement) : SnapState :=
  let snapshot := processElement i f
  let baseSelector := baseSelectorOf (resolvedAttrs f)
  let currentIndex := (mget s.selectorIndexMap baseSelector).getD 0
  { elements := s.elements ++ [snapshot]
    selectorIndexMap := mset s.selectorIndexMap baseSelector (currentIndex + 1)
    elementMap := mset s.elementMap snapshot.uid ⟨baseSelector, currentIndex⟩ }

def snapGo (i : Nat) (s : SnapState) : List FetchedElement → SnapState
  | [] => s
  | f :: fs => snapGo (i + 1) (snapStep s i f) fs

/-- `getPageSnapshot` over the fetched element list (its element-query
cascade is the out-of-scope collaborator; the loop starts from empty
accumulators). -/
def getPageSnapshot (fs : List FetchedElement) : SnapState :=
  snapGo 0 ⟨[], [], []⟩ fs

theorem snapGo_elements (fs : List FetchedElement) : ∀ (i : Nat) (s : SnapState),
    (snapGo i s fs).elements
      = s.elements ++ (List.enumFrom i fs).map (fun p => processElement p.1 p.2) := by
  induction fs with
  | nil => intro i s; simp [snapGo]
  | cons f fs ih =>
    intro i s
    simp only [snapGo, List.enumFrom, List.map_cons, ih, snapStep]
    simp

theorem getPageSnapshot_elements (fs : List FetchedElement) :
    (getPageSnapshot fs).elements
      = fs.enum.map (fun p => processElement p.1 p.2) := by
  simp [getPageSnapshot, snapGo_elements, List.enum]

theorem getPageSnapshot_length (fs : List FetchedElement) :
    (getPageSnapshot fs).elements.length = fs.length := by
  simp [getPageSnapshot_elements]

theorem enumFrom_map_getD (fs : List FetchedElement) :
    ∀ (n i : Nat), i < fs.length →
      ((List.enumFrom n fs).map (fun p => processElement p.1 p.2)).getD i default
        = processElement (n + i) (fs.getD i default) := by
  induction fs with
  | nil => intro n i h; exact absurd h (Nat.not_lt_zero i)
  | cons f fs ih =>
    intro n i h
    cases i with
    | zero => simp [List.enumFrom]
    | succ i =>
      have hi : i < fs.length := Nat.lt_of_succ_lt_succ h
      simp only [List.enumFrom, List.map_cons, List.getD_cons_succ, ih (n + 1) i hi]
      congr 1
      omega

theorem getPageSnapshot_getD (fs : List FetchedElement) (i : Nat) (h : i < fs.length) :
    (getPageSnapshot fs).elements.getD i default
      = processElement i (fs.getD i default) := by
  rw [getPageSnapshot_elements, List.enum]
  simpa using enumFrom_map_getD fs 0 i h

/-- Two distinct `view` elements carrying the same single class `foo`
(and no id), as fetched during one full snapshot. -/
def snapFsDup : List FetchedElement :=
  [⟨"view", some "a", some "foo", none, none, none⟩,
   ⟨"view", some "b", some "foo", none, none, none⟩]

/-- C1 — the claim asserts uids are pairwise distinct within one full
snapshot, later collisions receiving a numeric suffix.  `getPageSnapshot`
applies no suffix: two elements with tag `view` and first class `foo`
both receive the uid `view.foo`, so the snapshot's uid list is not
nodup. -/
theorem c1_counterexample :
    ((getPageSnapshot snapFsDup).elements.map (fun e => e.uid))
      = ["view.foo", "view.foo"] ∧
    ¬ List.Nodup ((getPageSnapshot snapFsDup).elements.map (fun e => e.uid)) := by
  constructor <;> decide

/-- C1 (amended) — in a full snapshot pass each element's uid is exactly
its base identifier (tag#id, tag.firstClass, or the tag:nth-child
fallback) with no disambiguation suffix; consequently two elements that
derive the same base identifier share the same uid, and uids are pairwise
distinct only when the derived base identifiers are. -/
theorem c1_amended (fs : List FetchedElement) (i j : Nat) :
    (i < fs.length →
      ((getPageSnapshot fs).elements.getD i default).uid
        = generateElementUid (resolvedAttrs (fs.getD i default)) i) ∧
    (i < fs.length → j < fs.length →
      generateElementUid (resolvedAttrs (fs.getD i default)) i
        = generateElementUid (resolvedAttrs (fs.getD j default)) j →
      ((getPageSnapshot fs).elements.getD i default).uid
        = ((getPageSnapshot fs).elements.getD j default).uid) := by
  constructor
  · intro hi
    rw [getPageSnapshot_getD fs i hi]
    rfl
  · intro hi hj hbase
    rw [getPageSnapshot_getD fs i hi, getPageSnapshot_getD fs j hj]
    exact hbase

/-- C1 witness: the amended theorem applied to the concrete two-element
snapshot whose elements share the base identifier `view.foo`. -/
theorem c1_witness :
    ((getPageSnapshot snapFsDup).elements.getD 0 default).uid
      = ((getPageSnapshot snapFsDup).elements.getD 1 default).uid :=
  (c1_amended snapFsDup 0 1).2 (by decide) (by decide) (by decide)

/-- C8 — the claim asserts a failed fetch only makes the corresponding
descriptor field absent.  A failed `id`-attribute fetch is caught as `''`
and changes the derived uid instead: the same element yields uid
`view#x` when the id fetch succeeds and uid `view.c` when it fails. -/
theorem c8_counterexample :
    ((getPageSnapshot [⟨"view", none, some "c", some "x", none, none⟩]).elements.map
        (fun e => e.uid)) = ["view#x"] ∧
    ((getPageSnapshot [⟨"view", none, some "c", none, none, none⟩]).elements.map
        (fun e => e.uid)) = ["view.c"] ∧
    ((getPageSnapshot [⟨"view", none, some "c", none, none, none⟩]).elements.getD 0
        default).uid
      ≠ ((getPageSnapshot [⟨"view", none, some "c", some "x", none, none⟩]).elements.getD 0
        default).uid := by
  refine ⟨by decide, by decide, by decide⟩

/-- C8 (amended) — snapshot building never aborts: every input element
produces exactly one descriptor, in input order, for every combination of
per-field failures.  A failed `text`, `size` or `offset` fetch only makes
the corresponding descriptor field (`text` / `position`) absent, leaving
every other field of that element and all other elements unchanged.  A
failed `class` or `id` fetch is recovered as the empty string, which
leaves `tagName`, `text` and `position` unchanged but may move the
derived uid to a lower-priority base form. -/
theorem c8_amended :
    (∀ fs : List FetchedElement,
      (getPageSnapshot fs).elements = fs.enum.map (fun p => processElement p.1 p.2)) ∧
    (∀ fs : List FetchedElement, (getPageSnapshot fs).elements.length = fs.length) ∧
    (∀ (i : Nat) (f : FetchedElement),
      processElement i { f with text := none } = { processElement i f with text := none }) ∧
    (∀ (i : Nat) (f : FetchedElement),
      processElement i { f with size := none } = { processElement i f with position := none }) ∧
    (∀ (i : Nat) (f : FetchedElement),
      processElement i { f with offset := none } = { processElement i f with position := none }) ∧
    (∀ (i : Nat) (f : FetchedElement),
      processElement i { f with id := none } = processElement i { f with id := some "" }) ∧
    (∀ (i : Nat) (f : FetchedElement),
      processElement i { f with className := none }
        = processElement i { f with className := some "" }) ∧
    (∀ (i : Nat) (f : FetchedElement),
      (processElement i { f with id := none }).tagName = (processElement i f).tagName ∧
      (processElement i { f with id := none }).text = (processElement i f).text ∧
      (processElement i { f with id := none }).position = (processElement i f).position ∧
      (processElement i { f with className := none }).tagName = (processElement i f).tagName ∧
      (processElement i { f with className := none }).text = (processElement i f).text ∧
      (processElement i { f with className := none }).position = (processElement i f).position) := by
  have htrim : jsTrim "" = "" := by decide
  refine ⟨getPageSnapshot_elements, getPageSnapshot_length, ?_, ?_, ?_, ?_, ?_, ?_⟩
  · intro i f
    obtain ⟨tg, tx, cl, idf, sz, off⟩ := f
    simp [processElement, resolvedAttrs, htrim]
  · intro i f
    obtain ⟨tg, tx, cl, idf, sz, off⟩ := f
    cases sz <;> cases off <;> simp [processElement, resolvedAttrs]
  · intro i f
    obtain ⟨tg, tx, cl, idf, sz, off⟩ := f
    cases sz <;> cases off <;> simp [processElement, resolvedAttrs]
  · intro i f
    obtain ⟨tg, tx, cl, idf, sz, off⟩ := f
    simp [processElement, resolvedAttrs]
  · intro i f
    obtain ⟨tg, tx, cl, idf, sz, off⟩ := f
    simp [processElement, resolvedAttrs, firstClassToken, generateElementUid]
  · intro i f
    obtain ⟨tg, tx, cl, idf, sz, off⟩ := f
    refine ⟨?_, ?_, ?_, ?_, ?_, ?_⟩ <;> simp [processElement, resolvedAttrs]

/-! ### The `maxElements` cap of `get_page_snapshot`
(`src/tools/snapshot.ts`)

```js
const limitedUids = new Set(limitedElements.map(el => el.uid));
elementMap.forEach((value, key) => {
  if (limitedUids.has(key)) context.elementMap.set(key, value);
});
```
`context.elementMap` was cleared just before, and a JavaScript `Map`
visits each (unique) key once in insertion order, so the resulting
context map is the freshly built map restricted to the kept keys. -/

def limitedUids (fs : List FetchedElement) (k : Nat) : List String :=
  ((getPageSnapshot fs).elements.take k).map (fun e => e.uid)

def snapshotToolMapLimited (fs : List FetchedElement) (k : Nat) :
    List (String × ElementMapInfo) :=
  (getPageSnapshot fs).elementMap.filter (fun p => decide (p.1 ∈ limitedUids fs k))

theorem mget_filter {α : Type} (m : List (String × α)) (pred : String → Prop)
    [DecidablePred pred] (k : String) :
    mget (m.filter (fun p => decide (pred p.1))) k
      = if pred k then mget m k else none := by
  induction m with
  | nil => by_cases h : pred k <;> simp [mget, h]
  | cons p rest ih =>
    obtain ⟨pk, pv⟩ := p
    by_cases hpred : pred pk
    · rw [List.filter_cons_of_pos (by simpa using hpred)]
      by_cases hk : pk = k
      · subst hk
        simp [mget, hpred]
      · simp [mget, hk, ih]
    · rw [List.filter_cons_of_neg (by simpa using hpred)]
      by_cases hk : pk = k
      · subst hk
        simp [mget, hpred, ih]
      · simp [mget, hk, ih]

/-- C9 — after `get_page_snapshot` with `maxElements = k`, a uid resolves
in the session selector map exactly when it is a uid of one of the first
`k` snapshot elements (and then to its entry in the freshly built map);
every other uid is absent, so the cap restricts resolvability, not just
presentation. -/
theorem c9_maxElements_cap (fs : List FetchedElement) (k : Nat) (u : String) :
    mget (snapshotToolMapLimited fs k) u
      = if u ∈ limitedUids fs k then mget (getPageSnapshot fs).elementMap u else none :=
  mget_filter ((getPageSnapshot fs).elementMap) (fun s => s ∈ limitedUids fs k) u

/-! ### `queryElements` (`src/tools.ts`, the `$` tool)

```js
const uidCounter = new Map<string, number>();
...
const baseUid = await generateElementUid(element, i);
const count = uidCounter.get(baseUid) || 0;
uidCounter.set(baseUid, count + 1);
const uid = count === 0 ? baseUid : `${baseUid}[${count + 1}]`;
...
elementMap.set(uid, { selector: selector, index: i });
```
The map is not cleared before the loop. -/

/-- The uid-assignment loop of `queryElements` over the per-element base
uids, threading the per-call `uidCounter`. -/
def queryGo (counter : List (String × Nat)) : List String → List String
  | [] => []
  | b :: bs =>
    let count := (mget counter b).getD 0
    let uid := if count = 0 then b else b ++ "[" ++ toString (count + 1) ++ "]"
    uid :: queryGo (mset counter b (count + 1)) bs

/-- Suffixed uids of one `queryElements` call (the counter starts empty). -/
def assignQueryUids (bases : List String) : List String := queryGo [] bases

/-- The `elementMap.set` calls of one `queryElements` call: entry
`(uid, {selector, index = position})` for each result element, merged
into the existing map. -/
def queryPopulate (sel : String) : List (String × ElementMapInfo) → Nat → List String →
    List (String × ElementMapInfo)
  | m, _, [] => m
  | m, i, u :: us => queryPopulate sel (mset m u ⟨sel, i⟩) (i + 1) us

/-- Selector-map effect of one `queryElements(page, elementMap, {selector})`
call whose elements derive the given base uids. -/
def queryElementsMap (m : List (String × ElementMapInfo)) (sel : String)
    (bases : List String) : List (String × ElementMapInfo) :=
  queryPopulate sel m 0 (assignQueryUids bases)

/-- Selector-map effect of the `get_page_snapshot` tool without
`maxElements`: `context.elementMap.clear()` followed by copying every
entry of the freshly built map — the prior content is discarded. -/
def snapshotToolMap (_prior : List (String × ElementMapInfo)) (fs : List FetchedElement) :
    List (String × ElementMapInfo) :=
  (getPageSnapshot fs).elementMap

theorem queryGo_length (bs : List String) :
    ∀ counter, (queryGo counter bs).length = bs.length := by
  induction bs with
  | nil => intro counter; rfl
  | cons b bs ih => intro counter; simp [queryGo, ih]

theorem queryGo_getD (bs : List String) :
    ∀ (counter : List (String × Nat)) (i : Nat), i < bs.length →
      (queryGo counter bs).getD i ""
        = (if (mget counter (bs.getD i "")).getD 0 + countOcc (bs.getD i "") (bs.take i) = 0
           then bs.getD i ""
           else bs.getD i "" ++ "["
             ++ toString ((mget counter (bs.getD i "")).getD 0
                  + countOcc (bs.getD i "") (bs.take i) + 1) ++ "]") := by
  induction bs with
  | nil => intro counter i h; exact absurd h (Nat.not_lt_zero i)
  | cons b bs ih =>
    intro counter i h
    cases i with
    | zero => simp [queryGo, countOcc]
    | succ i =>
      have hi : i < bs.length := Nat.lt_of_succ_lt_succ h
      simp only [queryGo, List.getD_cons_succ]
      rw [ih (mset counter b ((mget counter b).getD 0 + 1)) i hi]
      have hcount :
          (mget (mset counter b ((mget counter b).getD 0 + 1)) (bs.getD i "")).getD 0
              + countOcc (bs.getD i "") (bs.take i)
            = (mget counter (bs.getD i "")).getD 0
              + countOcc (bs.getD i "") ((b :: bs).take (i + 1)) := by
        rw [List.take_succ_cons, mget_mset]
        by_cases hb : b = bs.getD i ""
        · rw [if_pos hb, ← hb]
          simp [countOcc]
          omega
        · rw [if_neg hb]
          simp only [countOcc]
          rw [if_neg hb]
          omega
      rw [hcount]

/-- C7 — `queryElements` collision handling: within one call the first
occurrence of a base uid keeps the bare uid and the `k`-th occurrence
(`k ≥ 2`) receives the suffix `[k]`; the counter is per call and keyed by
the base uid. -/
theorem c7_query_collision_suffix (bases : List String) (i : Nat) (h : i < bases.length) :
    (assignQueryUids bases).length = bases.length ∧
    (assignQueryUids bases).getD i ""
      = (if countOcc (bases.getD i "") (bases.take i) = 0
         then bases.getD i ""
         else bases.getD i "" ++ "["
           ++ toString (countOcc (bases.getD i "") (bases.take i) + 1) ++ "]") := by
  constructor
  · exact queryGo_length bases []
  · have hgo := queryGo_getD bases [] i h
    simpa [mget] using hgo

/-- C7 witness: four query results with base uids
`view.a, view.a, view.a, button#b`; the third occurrence of `view.a`
receives suffix `[3]`. -/
theorem c7_witness :
    (assignQueryUids ["view.a", "view.a", "view.a", "button#b"]).getD 2 "" = "view.a[3]" := by
  have h := (c7_query_collision_suffix ["view.a", "view.a", "view.a", "button#b"] 2 (by decide)).2
  exact h.trans (by decide)

theorem queryPopulate_not_mem (sel : String) (us : List String) :
    ∀ (m : List (String × ElementMapInfo)) (i : Nat) (k : String), k ∉ us →
      mget (queryPopulate sel m i us) k = mget m k := by
  induction us with
  | nil => intro m i k _; rfl
  | cons u us ih =>
    intro m i k h
    have hk : k ≠ u := fun he => h (he ▸ List.mem_cons_self u us)
    have hus : k ∉ us := fun hm => h (List.mem_cons_of_mem u hm)
    show mget (queryPopulate sel (mset m u ⟨sel, i⟩) (i + 1) us) k = mget m k
    rw [ih _ _ _ hus, mget_mset, if_neg (Ne.symm hk)]

theorem queryPopulate_mem (sel : String) (us : List String) :
    ∀ (m : List (String × ElementMapInfo)) (i : Nat) (k : String), k ∈ us →
      (mget (queryPopulate sel m i us) k).isSome := by
  induction us with
  | nil => intro m i k h; cases h
  | cons u us ih =>
    intro m i k h
    by_cases hus : k ∈ us
    · exact ih _ _ _ hus
    · have hk : k = u := by
        rcases List.mem_cons.mp h with h1 | h2
        · exact h1
        · exact absurd h2 hus
      subst hk
      show (mget (queryPopulate sel (mset m k ⟨sel, i⟩) (i + 1) us) k).isSome
      rw [queryPopulate_not_mem sel us _ _ _ hus, mget_mset, if_pos rfl]
      rfl

/-- C5 — the claim asserts that a selector query, like a snapshot,
overwrites the selector map wholesale.  `queryElements` never clears the
map: an entry recorded earlier (here `button#old`) is still resolvable
after a query producing the unrelated uid `view.a`, which was merely
added alongside it. -/
theorem c5_counterexample :
    mget (queryElementsMap [("button#old", ⟨"button#old", 0⟩)] "view" ["view.a"]) "button#old"
      = some ⟨"button#old", 0⟩ ∧
    mget (queryElementsMap [("button#old", ⟨"button#old", 0⟩)] "view" ["view.a"]) "view.a"
      = some ⟨"view", 0⟩ := by
  constructor <;> decide

/-- C5 (amended) — a snapshot overwrites the session selector map
wholesale (the context map afterwards is exactly the freshly built map,
independent of the prior content), but a selector query does not clear
the map: it only adds or overwrites the entries for the uids it produces,
and every prior entry whose uid is not re-produced keeps its old value
and remains resolvable. -/
theorem c5_amended (prior m : List (String × ElementMapInfo)) (fs : List FetchedElement)
    (sel : String) (bases : List String) (k : String) :
    snapshotToolMap prior fs = (getPageSnapshot fs).elementMap ∧
    snapshotToolMap prior fs = snapshotToolMap m fs ∧
    (k ∉ assignQueryUids bases → mget (queryElementsMap m sel bases) k = mget m k) ∧
    (k ∈ assignQueryUids bases → (mget (queryElementsMap m sel bases) k).isSome) := by
  refine ⟨rfl, rfl, ?_, ?_⟩
  · intro h
    exact queryPopulate_not_mem sel (assignQueryUids bases) m 0 k h
  · intro h
    exact queryPopulate_mem sel (assignQueryUids bases) m 0 k h

/-- C5 witness: the amended theorem applied to the concrete prior map
holding `button#old` and a query producing the single uid `view.a`. -/
theorem c5_witness :
    mget (queryElementsMap [("button#old", ⟨"button#old", 0⟩)] "view" ["view.a"]) "button#old"
      = mget [("button#old", (⟨"button#old", 0⟩ : ElementMapInfo))] "button#old" :=
  (c5_amended [] [("button#old", ⟨"button#old", 0⟩)] [] "view" ["view.a"] "button#old").2.2.1
    (by decide)

/-! ### `clickElement` uid resolution (`src/tools.ts`) -/

inductive ClickError where
  | unknownUid (uid : String) : ClickError
  | staleSelector (selector : String) : ClickError
  | indexOutOfRange (index found : Nat) : ClickError
  deriving Repr, DecidableEq

/-- The message texts thrown by `clickElement` for the three lookup
failures (before the outer wrapper prefixes `Failed to click element:`). -/
def clickErrorMessage : ClickError → String
  | .unknownUid uid => "Cannot find element with uid " ++ uid ++ ", please get page snapshot first"
  | .staleSelector sel => "Cannot find element with selector " ++ sel
  | .indexOutOfRange idx found =>
      "Element index " ++ toString idx ++ " out of range, found " ++ toString found ++ " elements"

/-- Resolution phase of `clickElement`: map lookup, re-query of the
stored selector, index check, and the element finally acted upon; `q` is
the live `page.$$` query. -/
def clickElementResolve {α : Type} (m : List (String × ElementMapInfo))
    (q : String → List α) (uid : String) : Except ClickError α :=
  match mget m uid with
  | none => Except.error (ClickError.unknownUid uid)
  | some info =>
    let elements := q info.selector
    if elements.length = 0 then Except.error (ClickError.staleSelector info.selector)
    else if h : elements.length ≤ info.index then
      Except.error (ClickError.indexOutOfRange info.index elements.length)
    else Except.ok (elements.get ⟨info.index, Nat.lt_of_not_le h⟩)

/-- C4 — uid resolution of a UID-consuming interaction: an unrecorded uid
fails with the re-snapshot instruction; a recorded uid whose fresh query
is empty fails with the stale-selector error; a stored index at or past
the fresh count fails with the index-out-of-range error reporting the
matched count; otherwise the element at the stored index is acted upon.
The three failure kinds are pairwise distinct values and resolution is a
total function (no crash). -/
theorem c4_clickElement {α : Type} (m : List (String × ElementMapInfo))
    (q : String → List α) (uid : String) :
    (mget m uid = none →
      clickElementResolve m q uid = Except.error (ClickError.unknownUid uid)) ∧
    (∀ info, mget m uid = some info → q info.selector = [] →
      clickElementResolve m q uid = Except.error (ClickError.staleSelector info.selector)) ∧
    (∀ info, mget m uid = some info → 0 < (q info.selector).length →
      (q info.selector).length ≤ info.index →
      clickElementResolve m q uid
        = Except.error (ClickError.indexOutOfRange info.index (q info.selector).length)) ∧
    (∀ info (hinfo : mget m uid = some info) (hidx : info.index < (q info.selector).length),
      clickElementResolve m q uid = Except.ok ((q info.selector).get ⟨info.index, hidx⟩)) ∧
    (∀ u s j n, ClickError.unknownUid u ≠ ClickError.staleSelector s ∧
      ClickError.unknownUid u ≠ ClickError.indexOutOfRange j n ∧
      ClickError.staleSelector s ≠ ClickError.indexOutOfRange j n) ∧
    clickErrorMessage (ClickError.unknownUid uid)
      = "Cannot find element with uid " ++ uid ++ ", please get page snapshot first" ∧
    (∀ j n, clickErrorMessage (ClickError.indexOutOfRange j n)
      = "Element index " ++ toString j ++ " out of range, found " ++ toString n ++ " elements") := by
  refine ⟨?_, ?_, ?_, ?_, ?_, rfl, fun j n => rfl⟩
  · intro h
    simp [clickElementResolve, h]
  · intro info hinfo hempty
    simp [clickElementResolve, hinfo, hempty]
  · intro info hinfo hpos hle
    have h0 : ¬((q info.selector).length = 0) := by omega
    simp [clickElementResolve, hinfo, h0, hle]
  · intro info hinfo hidx
    have h0 : ¬((q info.selector).length = 0) := by omega
    have hnle : ¬((q info.selector).length ≤ info.index) := by omega
    simp [clickElementResolve, hinfo, h0, hnle]
  · intro u s j n
    refine ⟨by simp, by simp, by simp⟩

def clickMapOk : List (String × ElementMapInfo) := [("view.a", ⟨"view", 0⟩)]

def clickMapFar : List (String × ElementMapInfo) := [("view.a", ⟨"view", 5⟩)]

def clickQueryOne : String → List Nat := fun s => if s = "view" then [7] else []

def clickQueryNone : String → List Nat := fun _ => []

/-- C4 witness: the resolution theorem applied at concrete maps and
queries exhibiting all four outcomes. -/
theorem c4_witness :
    clickElementResolve clickMapOk clickQueryOne "bogus"
      = Except.error (ClickError.unknownUid "bogus") ∧
    clickElementResolve clickMapOk clickQueryNone "view.a"
      = Except.error (ClickError.staleSelector "view") ∧
    clickElementResolve clickMapFar clickQueryOne "view.a"
      = Except.error (ClickError.indexOutOfRange 5 1) ∧
    clickElementResolve clickMapOk clickQueryOne "view.a" = Except.ok 7 := by
  refine ⟨?_, ?_, ?_, ?_⟩
  · exact (c4_clickElement clickMapOk clickQueryOne "bogus").1 (by decide)
  · exact (c4_clickElement clickMapOk clickQueryNone "view.a").2.1 ⟨"view", 0⟩
      (by decide) (by decide)
  · exact (c4_clickElement clickMapFar clickQueryOne "view.a").2.2.1 ⟨"view", 5⟩
      (by decide) (by decide) (by decide)
  · exact (c4_clickElement clickMapOk clickQueryOne "view.a").2.2.2.1 ⟨"view", 0⟩
      (by decide) (by decide)

/-! ### Console storage and monitoring (console tools file)

`initializeConsoleStorage` creates one empty navigation session, an empty
`messageIdMap`, `maxNavigations = 3` and a fresh id generator.
`start_console_monitoring` registers exactly two listeners, for the
`console` and `exception` events; the `pageNavigate` rollover handler
(unshift a fresh session, splice to `maxNavigations`) exists only as a
commented-out TODO, so a navigation event reaching the miniProgram
emitter has no registered handler and leaves the storage untouched.
Wall-clock timestamps are environmental and not modelled. -/

structure ConsoleRecord where
  msgid : Nat
  message : String
  isException : Bool
  deriving Repr, DecidableEq, Inhabited

structure NavSession where
  messages : List ConsoleRecord
  exceptions : List ConsoleRecord
  deriving Repr, DecidableEq, Inhabited

structure ConsoleStorage where
  navigations : List NavSession
  messageIdMap : List (Nat × ConsoleRecord)
  isMonitoring : Bool
  maxNavigations : Nat
  idGenState : Nat
  deriving Repr, DecidableEq, Inhabited

def initializeConsoleStorage : ConsoleStorage :=
  { navigations := [⟨[], []⟩]
    messageIdMap := []
    isMonitoring := false
    maxNavigations := 3
    idGenState := 1 }

def startMonitoring (s : ConsoleStorage) : ConsoleStorage :=
  { s with isMonitoring := true }

/-- Events emitted by the miniProgram collaborator while monitoring. -/
inductive MpEvent where
  | console (message : String)
  | exception (message : String)
  | pageNavigate
  deriving Repr, DecidableEq

/-- Effect of one emitted event on the storage: the `console` and
`exception` handlers assign a msgid, push the record onto session 0 and
insert it into the id map; `pageNavigate` has no registered handler
(commented-out TODO in the source), so the state is unchanged. -/
def monitorStep (s : ConsoleStorage) (e : MpEvent) : ConsoleStorage :=
  match e with
  | .console msg =>
    let msgid := (idGenStep s.idGenState).1
    let record : ConsoleRecord := ⟨msgid, msg, false⟩
    match s.navigations with
    | [] => s
    | nav :: rest =>
      { s with
        navigations := { nav with messages := nav.messages ++ [record] } :: rest
        messageIdMap := mset s.messageIdMap msgid record
        idGenState := (idGenStep s.idGenState).2 }
  | .exception msg =>
    let msgid := (idGenStep s.idGenState).1
    let record : ConsoleRecord := ⟨msgid, msg, true⟩
    match s.navigations with
    | [] => s
    | nav :: rest =>
      { s with
        navigations := { nav with exceptions := nav.exceptions ++ [record] } :: rest
        messageIdMap := mset s.messageIdMap msgid record
        idGenState := (idGenStep s.idGenState).2 }
  | .pageNavigate => s

/-- Storage after monitoring starts and the given events are emitted. -/
def runMonitor (es : List MpEvent) : ConsoleStorage :=
  es.foldl monitorStep (startMonitoring initializeConsoleStorage)

/-- `get_console_message`: id-map lookup, with the not-found error text. -/
def getConsoleMessage (s : ConsoleStorage) (msgid : Nat) : Except String ConsoleRecord :=
  match mget s.messageIdMap msgid with
  | none => Except.error ("Message with msgid=" ++ toString msgid
      ++ " not found. Please use list_console_messages to view available messages.")
  | some m => Except.ok m

theorem monitorStep_preserves_ids (s : ConsoleStorage) (e : MpEvent) (id : Nat) :
    (mget s.messageIdMap id).isSome ≤ (mget (monitorStep s e).messageIdMap id).isSome := by
  cases e with
  | console msg =>
    cases hn : s.navigations with
    | nil => simp [monitorStep, hn]
    | cons nav rest =>
      simp only [monitorStep, hn]
      rw [mget_mset]
      by_cases h : (idGenStep s.idGenState).1 = id <;> simp [h]
  | exception msg =>
    cases hn : s.navigations with
    | nil => simp [monitorStep, hn]
    | cons nav rest =>
      simp only [monitorStep, hn]
      rw [mget_mset]
      by_cases h : (idGenStep s.idGenState).1 = id <;> simp [h]
  | pageNavigate => exact le_refl _

/-- C2 — the claim describes session rollover and eviction on navigation.
In the source no navigation listener is registered (the rollover handler
is a commented-out TODO): a `pageNavigate` event leaves the storage
unchanged, a captured msgid is never removed from the id map by any
event, and after a console capture followed by four navigations the
storage still holds exactly one session and `getMessage(1)` still
succeeds instead of failing with the not-found error. -/
theorem c2_navigation_eviction_missing :
    (∀ s : ConsoleStorage, monitorStep s MpEvent.pageNavigate = s) ∧
    (∀ (s : ConsoleStorage) (e : MpEvent) (id : Nat),
      (mget s.messageIdMap id).isSome ≤ (mget (monitorStep s e).messageIdMap id).isSome) ∧
    (runMonitor [MpEvent.console "boot", MpEvent.pageNavigate, MpEvent.pageNavigate,
        MpEvent.pageNavigate, MpEvent.pageNavigate]).navigations.length = 1 ∧
    getConsoleMessage (runMonitor [MpEvent.console "boot", MpEvent.pageNavigate,
        MpEvent.pageNavigate, MpEvent.pageNavigate, MpEvent.pageNavigate]) 1
      = Except.ok ⟨1, "boot", false⟩ := by
  refine ⟨fun s => rfl, monitorStep_preserves_ids, by decide, ?_⟩
  rfl

end WeixinMcp
